import Mathlib

/-!
# Verification of the MCP agent host scripts

Shallow embedding of the two host scripts
(`agent_chat_with_google_search.py`, `agent_company_analyze.py`) and the
leaf search server (`server_google_search.py`).

Strings are modelled as lists of characters (`Str`), Python dicts as
insertion-ordered association lists, raised Python exceptions as the
`Except` monad with a `PyErr` error type, and the external collaborators
(`json.loads`, the MCP client session, the model oracle) as explicit
function parameters or scripted response lists.
-/

/-- Python strings, modelled as lists of characters. -/
abbrev Str := List Char

/-- Prefix test `isPre pre s`: does `s` start with `pre`? (model of list-prefix tests). -/
def isPre : Str → Str → Bool
  | [], _ => true
  | _ :: _, [] => false
  | c :: cs, d :: ds => c == d && isPre cs ds

/-- Substring test `containsSub sub s`: does `sub` occur as a contiguous substring of `s`?
Model of Python's `sub in s`. -/
def containsSub (sub : Str) : Str → Bool
  | [] => isPre sub []
  | c :: rest => isPre sub (c :: rest) || containsSub sub rest

/-- Worker for `splitOnL` for a two-character separator `s1 s2`:
`acc` holds the current chunk reversed. Splitting on each non-overlapping
leftmost occurrence of the separator, exactly as Python's `str.split`. -/
def splitGo (s1 s2 : Char) : Str → Str → List Str
  | acc, [] => [acc.reverse]
  | acc, [c] => [(c :: acc).reverse]
  | acc, c :: d :: rest =>
    if c == s1 && d == s2 then
      acc.reverse :: splitGo s1 s2 [] rest
    else
      splitGo s1 s2 (c :: acc) (d :: rest)

/-- Python's `s.split(sep)` for the two-character separator `[s1, s2]`. The
source only ever splits on `TOOL_SEPARATOR = "__"`, a two-character string. -/
def splitOnL (s1 s2 : Char) (s : Str) : List Str := splitGo s1 s2 [] s

/-- Python's `a, b = s.split(sep)`: succeeds exactly when the split yields
exactly two parts, otherwise the unpacking raises `ValueError`. -/
def pySplit2 (s1 s2 : Char) (s : Str) : Option (Str × Str) :=
  match splitOnL s1 s2 s with
  | [a, b] => some (a, b)
  | _ => none

example : splitOnL '_' '_' (("a___b".data)) = [("a".data), ("_b".data)] := by decide
example : splitOnL '_' '_' (("noseparatorhere".data)) = [("noseparatorhere".data)] := by decide
example : splitOnL '_' '_' (("a__b__c".data)) = [("a".data), ("b".data), ("c".data)] := by decide
example : splitOnL '_' '_' (("a____b".data)) = [("a".data), ("".data), ("b".data)] := by decide
example : pySplit2 '_' '_' (("search__query".data)) = some (("search".data), ("query".data)) := by decide

/-! ## Constants (both host scripts) -/

/-- Constant `TOOL_SEPARATOR = "__"` — separator between server name and tool name. -/
def TOOL_SEPARATOR : Str := ("__".data)

/-- Constant `FINAL_TOOL_NAME = "final_answer"` — terminal marker of
`agent_company_analyze.py`. -/
def FINAL_TOOL_NAME : Str := ("final_answer".data)

/-! ## Data model

The parsed-JSON value type is abstract (`J`): `json.loads` is a stdlib
collaborator, modelled as an explicit partial function `Str → Option J`
(`none` = `json.JSONDecodeError` raised). The MCP client session is likewise
external: a live session is a function from (tool name, arguments) to either
a raised exception or a `call_tool` result. -/

/-- A content item of an MCP `call_tool` result ({type, text} shape; the
host reads only `.text`). -/
structure ContentItem where
  text : Str
deriving DecidableEq

/-- Result payload of `session.call_tool`. -/
structure CallToolRes where
  content : List ContentItem
deriving DecidableEq

/-- Raised Python exceptions relevant to the embedded code paths. -/
inductive PyErr
  /-- Python `json.loads` raised `JSONDecodeError`. -/
  | jsonDecodeError
  /-- tuple unpacking of `split` raised `ValueError` (not exactly 2 parts). -/
  | valueErrorUnpack
  /-- Lookup `servers[server_name]` raised `KeyError` (unknown provider). -/
  | keyError
  /-- Calling `None.call_tool` raised `AttributeError` (session never initialized). -/
  | attributeError
  /-- indexing `[0]` into an empty list raised `IndexError`. -/
  | indexErrorEmpty
  /-- a provider-side `call_tool` failure propagated by the session. -/
  | toolExecutionError
  /-- modelling artifact: the code reached another `client.responses.create`
  call but the scripted oracle has no further response. -/
  | oracleUnavailable
deriving DecidableEq

/-- A live MCP client session: `call_tool(name, arguments)` either raises or
returns a content list. -/
def SessionFn (J : Type) : Type := Str → J → Except PyErr CallToolRes

/-- Python `class MCPServer(BaseModel)`: name, command, args, env, plus the
`session: Any = None` slot filled in at runtime. -/
structure MCPServer (J : Type) where
  name : Str
  command : Str
  args : List Str
  env : Option (List (Str × Str))
  session : Option (SessionFn J)

/-- Python dict lookup `d[k]` on an insertion-ordered association list:
`none` models a raised `KeyError`. -/
def dictGet {α : Type} : List (Str × α) → Str → Option α
  | [], _ => none
  | (k, v) :: rest, key => if k = key then some v else dictGet rest key

/-- A model-declared tool call (`ResponseFunctionToolCall`): qualified tool
name, opaque call identifier, raw JSON-encoded argument payload. -/
structure ToolCallReq where
  name : Str
  call_id : Str
  arguments : Str
deriving DecidableEq

/-! ## Tool dispatch (identical `dispatch_tool_call` in both host scripts) -/

/-- Embedding of `dispatch_tool_call(tool_call, servers)`, line by line:
`args = json.loads(tool_call.arguments)` —
`server_name, tool_name = tool_call.name.split(TOOL_SEPARATOR)` —
`session = servers[server_name].session` —
`result = await session.call_tool(name=tool_name, arguments=args)` —
`return str(result.content[0].text)` (`str` of a `str` is the identity).
Any failure is a raised exception (`Except.error`); the source catches
nothing. -/
def dispatch_tool_call {J : Type} (parse : Str → Option J)
    (servers : List (Str × MCPServer J)) (tc : ToolCallReq) : Except PyErr Str :=
  match parse tc.arguments with
  | none => .error .jsonDecodeError
  | some args =>
    match pySplit2 '_' '_' tc.name with
    | none => .error .valueErrorUnpack
    | some (server_name, tool_name) =>
      match dictGet servers server_name with
      | none => .error .keyError
      | some server =>
        match server.session with
        | none => .error .attributeError
        | some sess =>
          match sess tool_name args with
          | .error e => .error e
          | .ok result =>
            match result.content with
            | [] => .error .indexErrorEmpty
            | item :: _ => .ok item.text

/-! ## Registry: tool catalog construction -/

/-- An MCP `Tool` as consumed by `mcp_tool_to_openai_tool`: local name,
description, input schema (schema kept abstract as an opaque string). -/
structure ToolMeta where
  name : Str
  description : Str
  inputSchema : Str
deriving DecidableEq

/-- The OpenAI function-tool dict produced by `mcp_tool_to_openai_tool`. -/
structure OpenAITool where
  type : Str
  name : Str
  description : Str
  parameters : Str
deriving DecidableEq

/-- Source line `unique_name = server_name + TOOL_SEPARATOR + tool.name` (an f-string in the source). -/
def qualifiedName (server_name tool_name : Str) : Str :=
  server_name ++ TOOL_SEPARATOR ++ tool_name

/-- Embedding of `mcp_tool_to_openai_tool(tool, server_name)`. -/
def mcp_tool_to_openai_tool (tool : ToolMeta) (server_name : Str) : OpenAITool :=
  { type := ("function".data)
    name := qualifiedName server_name tool.name
    description := tool.description
    parameters := tool.inputSchema }

/-- Embedding of `init_servers(stack, servers)`: for each server (dict-value order),
start it, list its tools (`listed` gives each server's `list_tools` result —
an external RPC, modelled as a parameter keyed by server name), and append
every tool in OpenAI format. The source performs no duplicate check and has
no failure path of its own (session start-up failures are external). -/
def init_servers {J : Type} (listed : Str → List ToolMeta)
    (servers : List (Str × MCPServer J)) : List OpenAITool :=
  servers.flatMap fun p =>
    (listed p.2.name).map fun t => mcp_tool_to_openai_tool t p.2.name

/-- A raw configuration entry (value of `RAW_CONFIG`). -/
structure RawCfg where
  command : Str
  args : List Str
  env : Option (List (Str × Str))
deriving DecidableEq

/-- Embedding of `build_servers(raw) = dict-comprehension of MCPServer(name=name, **cfg) over raw.items()`
in raw.items()}` — the `session` field keeps its `None` default. -/
def build_servers {J : Type} (raw : List (Str × RawCfg)) :
    List (Str × MCPServer J) :=
  raw.map fun p =>
    (p.1, { name := p.1, command := p.2.command, args := p.2.args,
            env := p.2.env, session := none })

/-! ## Model oracle responses

A `Response` is the oracle's answer to one `client.responses.create` call:
an id and an ordered list of output items, each either an assistant message
(`ResponseOutputMessage`, with a content list of text parts) or a tool call
(`ResponseFunctionToolCall`). The oracle itself is scripted: a list of the
responses it returns to successive requests. -/

/-- One part of a message's `content` list; the host reads only `.text`. -/
structure MsgPart where
  text : Str
deriving DecidableEq

/-- An assistant-authored text item (`ResponseOutputMessage`). -/
structure Message where
  content : List MsgPart
deriving DecidableEq

/-- One output item of a model response. -/
inductive OutItem
  | message (m : Message)
  | toolCall (tc : ToolCallReq)
deriving DecidableEq

/-- A model oracle response: `response.id` and `response.output`. -/
structure Response where
  id : Str
  output : List OutItem
deriving DecidableEq

/-! ## Strict single-call loop (`agent_chat_with_google_search.chat_loop`)

One user turn of the REPL, from the first response for that turn onward:
`while isinstance(response.output[0], ResponseFunctionToolCall):` dispatch
`response.output[0]`, resubmit `[{"type": "function_call_output", "call_id":
tool_call.call_id, "output": tool_output}]` as the sole input of the next
`client.responses.create` call; on exit,
`assistant_message = response.output[0].content[0].text` and
`previous_id = response.id`. -/

/-- Outcome of one user turn of the strict loop. -/
structure TurnOutcome where
  /-- the `function_call_output` entries resubmitted, in order:
  (`call_id`, `output`) — exactly one per dispatched tool call. -/
  resubmitted : List (Str × Str)
  /-- The surfaced terminal text (`assistant_message`). -/
  answer : Str
  /-- The terminal response's `response.id`, recorded as `previous_id`. -/
  finalId : Str
  /-- the oracle script not consumed by this turn (each consumed entry is
  one further `client.responses.create` call). -/
  rest : List Response
deriving DecidableEq

/-- The inner `while` of `chat_loop` (strict single-call policy), plus the
terminal-text extraction that follows it. `resp` is the current response,
`script` the oracle's replies to the follow-up requests, in order. -/
def toolChain {J : Type} (parse : Str → Option J)
    (servers : List (Str × MCPServer J)) :
    Response → List Response → Except PyErr TurnOutcome
  | resp, script =>
    match resp.output with
    | [] => .error .indexErrorEmpty
    | .toolCall tc :: _ =>
      match dispatch_tool_call parse servers tc with
      | .error e => .error e
      | .ok out =>
        match script with
        | [] => .error .oracleUnavailable
        | next :: rest =>
          match toolChain parse servers next rest with
          | .error e => .error e
          | .ok o => .ok { o with resubmitted := (tc.call_id, out) :: o.resubmitted }
    | .message m :: _ =>
      match m.content with
      | [] => .error .indexErrorEmpty
      | p :: _ =>
        .ok { resubmitted := [], answer := p.text, finalId := resp.id,
              rest := script }

/-! ## Batch-policy single-shot loop (`agent_company_analyze.chat_loop`)

`while True:` call the oracle; partition `response.output` into
`output_msg` and `output_func_call` by `isinstance`; print each message's
`obj.content[0].text`, `break`-ing out of the *printing* loop when
`FINAL_TOOL_NAME in text`; then dispatch every `output_func_call` item,
collect `{"type": "function_call_output", "call_id": obj.call_id, "output":
tool_output}` entries into `func_call_result`; set
`previous_id = response.id` and `call_kwargs["input"] = func_call_result`;
loop. The `while` has no `break` or `return`: the function never returns
normally. -/

/-- Embedding of `output_msg = [obj for obj in response.output if isinstance(obj,
ResponseOutputMessage)]`. -/
def outputMsgList (resp : Response) : List Message :=
  resp.output.filterMap fun i =>
    match i with
    | .message m => some m
    | .toolCall _ => none

/-- Embedding of `output_func_call = [obj for obj in response.output if isinstance(obj,
ResponseFunctionToolCall)]`. -/
def outputFuncCallList (resp : Response) : List ToolCallReq :=
  resp.output.filterMap fun i =>
    match i with
    | .toolCall tc => some tc
    | .message _ => none

/-- The message-printing loop: `for obj in output_msg: text =
obj.content[0].text; ...; if FINAL_TOOL_NAME in text: break`. Printing is
I/O; what remains observable is the possible `IndexError` on an empty
content list and the early `break` (which stops only this loop). -/
def scanMsgs : List Message → Except PyErr Unit
  | [] => .ok ()
  | m :: rest =>
    match m.content with
    | [] => .error .indexErrorEmpty
    | p :: _ =>
      if containsSub FINAL_TOOL_NAME p.text then .ok () else scanMsgs rest

/-- Does some message item of the response contain the terminal marker in
its first text part? (The condition the spec's batch policy keys on.) -/
def hasMarker (resp : Response) : Bool :=
  (outputMsgList resp).any fun m =>
    match m.content with
    | [] => false
    | p :: _ => containsSub FINAL_TOOL_NAME p.text

/-- One `function_call_output` entry of `func_call_result`. -/
structure FuncOut where
  call_id : Str
  output : Str
deriving DecidableEq

/-- The dispatch loop: `for obj in output_func_call: tool_output = await
dispatch_tool_call(obj, servers); func_call_result.append({...})`. A
dispatch exception propagates and aborts the loop. -/
def dispatchAll {J : Type} (parse : Str → Option J)
    (servers : List (Str × MCPServer J)) :
    List ToolCallReq → Except PyErr (List FuncOut)
  | [] => .ok []
  | tc :: rest =>
    match dispatch_tool_call parse servers tc with
    | .error e => .error e
    | .ok out =>
      match dispatchAll parse servers rest with
      | .error e => .error e
      | .ok outs => .ok (⟨tc.call_id, out⟩ :: outs)

/-- What one iteration of the `while True` body leaves behind. -/
structure BatchStepOut where
  /-- The list `func_call_result`, which becomes `call_kwargs["input"]` of the next
  request — function-call outputs only, no user message. -/
  nextInput : List FuncOut
  /-- Assignment `previous_id = response.id`. -/
  newPrevId : Str
deriving DecidableEq

/-- One iteration of the `while True` body of the batch-policy `chat_loop`,
given the response the oracle returned for this iteration's request. -/
def batchStep {J : Type} (parse : Str → Option J)
    (servers : List (Str × MCPServer J)) (resp : Response) :
    Except PyErr BatchStepOut :=
  match scanMsgs (outputMsgList resp) with
  | .error e => .error e
  | .ok _ =>
    match dispatchAll parse servers (outputFuncCallList resp) with
    | .error e => .error e
    | .ok outs => .ok { nextInput := outs, newPrevId := resp.id }

/-- The full `while True` of the batch-policy `chat_loop`, over a scripted
oracle. The result type `Except PyErr Empty` records that the source loop
has no normal exit: every run ends in a raised exception — at the latest
`oracleUnavailable` when the code reaches another `client.responses.create`
and the script is exhausted. -/
def chat_loop_company {J : Type} (parse : Str → Option J)
    (servers : List (Str × MCPServer J)) :
    List Response → Except PyErr Empty
  | [] => .error .oracleUnavailable
  | resp :: rest =>
    match batchStep parse servers resp with
    | .error e => .error e
    | .ok _ => chat_loop_company parse servers rest

/-! ## Leaf search server (`server_google_search.py`)

`google_search(query)` sends `service.cse().list(q=query, cx=CX_ID, num=5,
gl="jp", lr="lang_ja").execute()` and post-processes `resp.get("items",
[])`. The Custom Search API call is external: the raw item list is a
parameter. The `num=5` cap lives in the request, not in the
post-processing, which maps over however many items it receives. -/

/-- The metatag fields the server reads from a raw item's
`pagemap.metatags[0]`. -/
structure MetaTags where
  /-- Value of `meta.get("article:published_time")`. -/
  published_time : Option Str
  /-- Value of `meta.get("og:updated_time")`. -/
  updated_time : Option Str
deriving DecidableEq

/-- One raw Custom Search result item, restricted to the fields the server
reads. `title`, `snippet`, `link` are indexed (`it["title"]` …) and hence
required; `displayLink` is `it.get(...)` and may be absent; `metatags` is
`it.get("pagemap", {}).get("metatags")`, absent modelled as `[]`. -/
structure RawItem where
  title : Str
  snippet : Str
  link : Str
  displayLink : Option Str
  metatags : List MetaTags
deriving DecidableEq

/-- One record of the `cleaned` list the server builds. -/
structure CleanedItem where
  rank : Nat
  title : Str
  snippet : Str
  url : Str
  domain : Option Str
  published_at : Option Str
deriving DecidableEq

/-- Python's `a or b` on optional strings: `a` unless `a` is `None` or the
empty string (both falsy). -/
def pyOr (a b : Option Str) : Option Str :=
  match a with
  | none => b
  | some s => if s = [] then b else some s

/-- Embedding of `meta = (it.get("pagemap", dict()).get("metatags") or [dict()])[0]`: the first
metatag dict, or an empty dict when the list is absent or empty. -/
def metaOf (it : RawItem) : MetaTags :=
  match it.metatags with
  | [] => { published_time := none, updated_time := none }
  | m :: _ => m

/-- The dict appended for one item at 1-based position `rank`. -/
def cleanItem (rank : Nat) (it : RawItem) : CleanedItem :=
  { rank := rank
    title := it.title
    snippet := it.snippet
    url := it.link
    domain := it.displayLink
    published_at := pyOr (metaOf it).published_time (metaOf it).updated_time }

/-- Embedding of `for rank, it in enumerate(items, 1): cleaned.append(record)`. -/
def cleanAll : Nat → List RawItem → List CleanedItem
  | _, [] => []
  | r, it :: rest => cleanItem r it :: cleanAll (r + 1) rest

/-- The post-processing `google_search` applies of the raw item list: the `cleaned`
list it builds (the function then returns `str(cleaned)`, a serialization
of exactly this list). -/
def google_search (items : List RawItem) : List CleanedItem :=
  cleanAll 1 items

/-! ## Helper lemmas about the separator split -/

/-- Does the string end in the separator character `'_'`? -/
def endsU : Str → Bool
  | [] => false
  | [c] => c == '_'
  | _ :: rest => endsU rest

theorem sep_chars : TOOL_SEPARATOR = ['_', '_'] := rfl

theorem isPre_sep (c d : Char) (rest : Str) :
    isPre TOOL_SEPARATOR (c :: d :: rest) = (c == '_' && d == '_') := by
  simp [sep_chars, isPre, BEq.comm]

/-- A chunk free of the separator is never split: the accumulator absorbs
it whole. -/
theorem splitGo_no_sep (s : Str) (h : containsSub TOOL_SEPARATOR s = false) :
    ∀ acc : Str, splitGo '_' '_' acc s = [acc.reverse ++ s] := by
  induction s with
  | nil => intro acc; simp [splitGo]
  | cons c s' ih =>
    intro acc
    cases s' with
    | nil => simp [splitGo]
    | cons d rest =>
      rw [containsSub, Bool.or_eq_false_iff] at h
      obtain ⟨h1, h2⟩ := h
      rw [isPre_sep] at h1
      rw [splitGo, if_neg (by simp [h1]), ih h2]
      simp

/-- Splitting `p ++ "__" ++ t` cuts exactly at the appended separator,
provided `p` neither contains the separator nor ends in `'_'`. -/
theorem splitGo_boundary (p : Str) (hp : containsSub TOOL_SEPARATOR p = false)
    (he : endsU p = false) (t : Str) :
    ∀ acc : Str,
      splitGo '_' '_' acc (p ++ '_' :: '_' :: t) =
        (acc.reverse ++ p) :: splitGo '_' '_' [] t := by
  induction p with
  | nil => intro acc; simp [splitGo]
  | cons c p' ih =>
    intro acc
    cases p' with
    | nil =>
      have hc : (c == '_') = false := by simpa [endsU] using he
      rw [List.singleton_append, splitGo, if_neg (by simp [hc])]
      simp [splitGo]
    | cons d p'' =>
      rw [containsSub, Bool.or_eq_false_iff] at hp
      obtain ⟨h1, h2⟩ := hp
      rw [isPre_sep] at h1
      have he' : endsU (d :: p'') = false := he
      rw [List.cons_append, List.cons_append, splitGo, if_neg (by simp_all),
        ← List.cons_append, ih h2 he']
      simp

/-- Round trip of qualified-name construction and Python's
`split("__")`: exact, under the conditions that actually make it hold. -/
theorem splitOnL_qualified (p t : Str)
    (hp : containsSub TOOL_SEPARATOR p = false) (he : endsU p = false)
    (ht : containsSub TOOL_SEPARATOR t = false) :
    splitOnL '_' '_' (qualifiedName p t) = [p, t] := by
  have hq : qualifiedName p t = p ++ '_' :: '_' :: t := by
    simp [qualifiedName, sep_chars]
  rw [splitOnL, hq, splitGo_boundary p hp he t [], splitGo_no_sep t ht]
  simp

/-! ## Concrete fixtures (used by witnesses and counterexamples) -/

/-- Degenerate model of `json.loads`: every payload parses (to `()`). -/
def parseAll : Str → Option Unit := fun _ => some ()

/-- Model of `json.loads` on the two payloads the scenarios use: `"good"`
is well-formed, anything else (e.g. `"not json"`) raises. -/
def parseSel : Str → Option Unit := fun s => if s = ("good".data) then some () else none

/-- A session whose every `call_tool` returns one text content item. -/
def sessOk : SessionFn Unit := fun _ _ => .ok { content := [{ text := ("result".data) }] }

/-- A provider named `search` with a live session. -/
def searchServer : MCPServer Unit :=
  { name := ("search".data), command := ("cmd".data), args := [], env := none,
    session := some sessOk }

/-- A one-provider runtime map: only `search` is registered. -/
def serversW : List (Str × MCPServer Unit) := [(("search".data), searchServer)]

/-! ## C1 — strict single-call loop: one dispatch, then terminal message -/

/-- Any response whose first output item is a message exits the strict
inner `while` immediately: no dispatch, no further oracle call, the first
content part's text surfaced. -/
theorem toolChain_terminal_head {J : Type} (parse : Str → Option J)
    (servers : List (Str × MCPServer J)) (r : Response) (m : Message)
    (items : List OutItem) (p : MsgPart) (parts : List MsgPart)
    (script : List Response)
    (h1 : r.output = .message m :: items) (h2 : m.content = p :: parts) :
    toolChain parse servers r script =
      .ok { resubmitted := [], answer := p.text, finalId := r.id,
            rest := script } := by
  rw [toolChain, h1]
  dsimp only
  rw [h2]

/-- C1: In the strict single-call loop, given an oracle that returns one
tool-call item and then, after that call's result is resubmitted, a message
item, the loop performs exactly one tool dispatch (resubmitting exactly
that call's result), surfaces the message's text as the terminal answer,
and consumes no further oracle responses for that user turn; and any
response whose first output item is a message item is treated as terminal
(no dispatch, script untouched). -/
theorem strict_loop_one_dispatch_terminal {J : Type} (parse : Str → Option J)
    (servers : List (Str × MCPServer J)) (resp next : Response)
    (tc : ToolCallReq) (out : Str) (m : Message) (items : List OutItem)
    (p : MsgPart) (parts : List MsgPart) (extra : List Response)
    (h1 : resp.output = [.toolCall tc])
    (h2 : dispatch_tool_call parse servers tc = .ok out)
    (h3 : next.output = .message m :: items)
    (h4 : m.content = p :: parts) :
    toolChain parse servers resp (next :: extra) =
      .ok { resubmitted := [(tc.call_id, out)], answer := p.text,
            finalId := next.id, rest := extra } ∧
    ∀ (r : Response) (m' : Message) (items' : List OutItem) (p' : MsgPart)
      (parts' : List MsgPart) (script : List Response),
      r.output = .message m' :: items' → m'.content = p' :: parts' →
      toolChain parse servers r script =
        .ok { resubmitted := [], answer := p'.text, finalId := r.id,
              rest := script } := by
  constructor
  · rw [toolChain, h1]
    dsimp only
    rw [h2]
    dsimp only
    rw [toolChain_terminal_head parse servers next m items p parts extra h3 h4]
  · intro r m' items' p' parts' script h5 h6
    exact toolChain_terminal_head parse servers r m' items' p' parts' script h5 h6

/-- A scripted one-turn scenario exercising C1 end to end: one tool call
against the `search` provider, then a terminal message. -/
theorem strict_loop_one_dispatch_terminal_witness :
    toolChain parseAll serversW
      { id := ("r1".data),
        output := [.toolCall ⟨("search__q".data), ("call1".data), ("good".data)⟩] }
      [{ id := ("r2".data), output := [.message ⟨[⟨("done".data)⟩]⟩] }] =
      .ok { resubmitted := [(("call1".data), ("result".data))], answer := ("done".data),
            finalId := ("r2".data), rest := [] } :=
  (strict_loop_one_dispatch_terminal parseAll serversW
    { id := ("r1".data),
      output := [.toolCall ⟨("search__q".data), ("call1".data), ("good".data)⟩] }
    { id := ("r2".data), output := [.message ⟨[⟨("done".data)⟩]⟩] }
    ⟨("search__q".data), ("call1".data), ("good".data)⟩ (("result".data))
    ⟨[⟨("done".data)⟩]⟩ [] ⟨("done".data)⟩ [] []
    rfl rfl rfl rfl).1

/-! ## C2 — batch loop: the terminal marker stops nothing -/

/-- A response carrying both a message that contains the terminal marker
`final_answer` and a pending tool call. -/
def respMark : Response :=
  { id := ("rM".data),
    output := [.message ⟨[⟨("report contains final_answer here".data)⟩]⟩,
               .toolCall ⟨("search__q".data), ("call2".data), ("good".data)⟩] }

/-- C2 is a code bug: on a response whose message contains the terminal
marker, the batch loop still dispatches the pending tool call, still
submits its result as the next request's input, and still issues a further
model call (the `break` exits only the message-printing `for`; the
`while True` has no exit, so `chat_loop` never returns). -/
theorem final_marker_does_not_stop_loop :
    hasMarker respMark = true ∧
    batchStep parseAll serversW respMark =
      .ok { nextInput := [⟨("call2".data), ("result".data)⟩],
            newPrevId := ("rM".data) } ∧
    chat_loop_company parseAll serversW [respMark] =
      .error .oracleUnavailable :=
  ⟨by decide, rfl, rfl⟩

/-! ## C3 — unknown provider: uncaught KeyError, loop aborts -/

/-- Counterexample to C3 as stated: dispatching qualified name
`missing__q` against a registry holding only `search` does not produce an
error-flavored tool result — it raises `KeyError`, and the strict loop run
aborts with that exception instead of continuing to its next model call
(the available follow-up response is never consumed). -/
theorem unknown_provider_uncaught_cex :
    dispatch_tool_call parseAll serversW
      ⟨("missing__q".data), ("c9".data), ("good".data)⟩ = .error .keyError ∧
    toolChain parseAll serversW
      { id := ("rB".data),
        output := [.toolCall ⟨("missing__q".data), ("c9".data), ("good".data)⟩] }
      [{ id := ("r2".data), output := [.message ⟨[⟨("done".data)⟩]⟩] }] =
      .error .keyError :=
  ⟨rfl, rfl⟩

/-- C3 (amended): a tool-call request whose provider part is not a
registered provider makes `dispatch_tool_call` raise an uncaught
`KeyError`, and the conversation loop aborts with that exception rather
than continuing to its next model call. -/
theorem unknown_provider_raises_keyError {J : Type} (parse : Str → Option J)
    (servers : List (Str × MCPServer J)) (tc : ToolCallReq) (v : J)
    (sn tn : Str)
    (h1 : parse tc.arguments = some v)
    (h2 : pySplit2 '_' '_' tc.name = some (sn, tn))
    (h3 : dictGet servers sn = none) :
    dispatch_tool_call parse servers tc = .error .keyError ∧
    ∀ (resp : Response) (tail : List OutItem) (script : List Response),
      resp.output = .toolCall tc :: tail →
      toolChain parse servers resp script = .error .keyError := by
  have hd : dispatch_tool_call parse servers tc = .error .keyError := by
    simp only [dispatch_tool_call]
    rw [h1]
    dsimp only
    rw [h2]
    dsimp only
    rw [h3]
  refine ⟨hd, ?_⟩
  intro resp tail script hresp
  rw [toolChain, hresp]
  dsimp only
  rw [hd]

/-- Concrete run of the amended C3 statement. -/
theorem unknown_provider_raises_keyError_witness :
    toolChain parseAll serversW
      { id := ("rB2".data),
        output := [.toolCall ⟨("missing__q".data), ("c9".data), ("good".data)⟩] }
      [] = .error .keyError :=
  (unknown_provider_raises_keyError parseAll serversW
      ⟨("missing__q".data), ("c9".data), ("good".data)⟩ () (("missing".data)) (("q".data))
      rfl rfl rfl).2
    { id := ("rB2".data),
      output := [.toolCall ⟨("missing__q".data), ("c9".data), ("good".data)⟩] }
    [] [] rfl

/-! ## C4 — dispatch order: JSON parse precedes the name split -/

/-- Counterexample to C4 as stated: with qualified name `noseparatorhere`
and a malformed argument payload, dispatch fails with the JSON decode
error, not the malformed-name error — so the split does not precede
argument parsing; and a qualified name with an empty provider part
(`__query`) passes the split and proceeds to the provider lookup
(`KeyError`), so the split does not require non-empty parts. -/
theorem dispatch_order_cex :
    dispatch_tool_call parseSel serversW
      ⟨("noseparatorhere".data), ("c1".data), ("not json".data)⟩ =
      .error .jsonDecodeError ∧
    PyErr.jsonDecodeError ≠ PyErr.valueErrorUnpack ∧
    dispatch_tool_call parseSel serversW
      ⟨("__query".data), ("c2".data), ("good".data)⟩ = .error .keyError ∧
    PyErr.keyError ≠ PyErr.valueErrorUnpack :=
  ⟨rfl, by decide, rfl, by decide⟩

/-- C4 (amended): dispatch first parses the raw argument payload as JSON,
failing there on malformed JSON regardless of the tool name; only then
splits the qualified name on the separator, requiring exactly two
(possibly empty) parts and raising `ValueError` otherwise, before any
provider lookup (the outcome is independent of the registry); in
particular, with a well-formed payload, the qualified name
`noseparatorhere` fails at the split before any provider lookup is
attempted. -/
theorem dispatch_parse_then_split {J : Type} (parse : Str → Option J)
    (tc : ToolCallReq) :
    (parse tc.arguments = none →
      ∀ servers : List (Str × MCPServer J),
        dispatch_tool_call parse servers tc = .error .jsonDecodeError) ∧
    (∀ v : J, parse tc.arguments = some v →
      pySplit2 '_' '_' tc.name = none →
      ∀ servers : List (Str × MCPServer J),
        dispatch_tool_call parse servers tc = .error .valueErrorUnpack) ∧
    (∀ v : J, parse tc.arguments = some v →
      tc.name = ("noseparatorhere".data) →
      ∀ servers : List (Str × MCPServer J),
        dispatch_tool_call parse servers tc = .error .valueErrorUnpack) := by
  refine ⟨?_, ?_, ?_⟩
  · intro h servers
    simp only [dispatch_tool_call]
    rw [h]
  · intro v h1 h2 servers
    simp only [dispatch_tool_call]
    rw [h1]
    dsimp only
    rw [h2]
  · intro v h1 h2 servers
    simp only [dispatch_tool_call]
    rw [h1]
    dsimp only
    rw [h2]
    rw [show pySplit2 '_' '_' (("noseparatorhere".data)) = none from rfl]

/-- Concrete run of the amended C4 statement: `noseparatorhere` with a
well-formed payload raises the unpacking `ValueError`. -/
theorem dispatch_parse_then_split_witness :
    dispatch_tool_call parseSel serversW
      ⟨("noseparatorhere".data), ("c3".data), ("good".data)⟩ =
      .error .valueErrorUnpack :=
  (dispatch_parse_then_split parseSel
      ⟨("noseparatorhere".data), ("c3".data), ("good".data)⟩).2.2 () rfl rfl serversW

/-! ## C5 — batch loop: every tool call dispatched, results tagged -/

/-- When every dispatch in the list succeeds with the paired output, the
dispatch loop collects one tagged `function_call_output` entry per
tool-call item, in order. -/
theorem dispatchAll_ok {J : Type} (parse : Str → Option J)
    (servers : List (Str × MCPServer J)) :
    ∀ (tcs : List ToolCallReq) (outs : List Str),
      List.Forall₂ (fun tc out =>
        dispatch_tool_call parse servers tc = .ok out) tcs outs →
      dispatchAll parse servers tcs =
        .ok ((tcs.zip outs).map fun p => ⟨p.1.call_id, p.2⟩) := by
  intro tcs outs hd
  induction hd with
  | nil => rfl
  | cons h _ ih =>
    rw [dispatchAll, h]
    dsimp only
    rw [ih]
    rfl

/-- C5: In the batch-policy loop, for a response whose tool-call items are
any two or more calls and whose messages contain no terminal marker (and
print without error), every tool-call item is dispatched exactly once, in
order, and the next request's input is exactly the list of results, each
tagged with its originating call identifier — no user input among them. -/
theorem batch_all_calls_dispatched {J : Type} (parse : Str → Option J)
    (servers : List (Str × MCPServer J)) (resp : Response)
    (tcs : List ToolCallReq) (outs : List Str)
    (_hn : 2 ≤ tcs.length)
    (hf : outputFuncCallList resp = tcs)
    (_hm : hasMarker resp = false)
    (hscan : scanMsgs (outputMsgList resp) = .ok ())
    (hd : List.Forall₂ (fun tc out =>
      dispatch_tool_call parse servers tc = .ok out) tcs outs) :
    batchStep parse servers resp =
      .ok { nextInput := (tcs.zip outs).map fun p => ⟨p.1.call_id, p.2⟩,
            newPrevId := resp.id } := by
  have hall := dispatchAll_ok parse servers tcs outs hd
  simp only [batchStep]
  rw [hscan]
  dsimp only
  rw [hf, hall]

/-- Concrete run of C5: a progress message plus three tool calls against
the `search` provider; all three results land in the next input, by call
id, in order. -/
theorem batch_all_calls_dispatched_witness :
    batchStep parseAll serversW
      { id := ("rT".data),
        output := [.message ⟨[⟨("working".data)⟩]⟩,
                   .toolCall ⟨("search__a".data), ("cA".data), ("good".data)⟩,
                   .toolCall ⟨("search__b".data), ("cB".data), ("good".data)⟩,
                   .toolCall ⟨("search__c".data), ("cC".data), ("good".data)⟩] } =
      .ok { nextInput := [⟨("cA".data), ("result".data)⟩,
                          ⟨("cB".data), ("result".data)⟩,
                          ⟨("cC".data), ("result".data)⟩],
            newPrevId := ("rT".data) } :=
  batch_all_calls_dispatched parseAll serversW
    { id := ("rT".data),
      output := [.message ⟨[⟨("working".data)⟩]⟩,
                 .toolCall ⟨("search__a".data), ("cA".data), ("good".data)⟩,
                 .toolCall ⟨("search__b".data), ("cB".data), ("good".data)⟩,
                 .toolCall ⟨("search__c".data), ("cC".data), ("good".data)⟩] }
    [⟨("search__a".data), ("cA".data), ("good".data)⟩,
     ⟨("search__b".data), ("cB".data), ("good".data)⟩,
     ⟨("search__c".data), ("cC".data), ("good".data)⟩]
    [("result".data), ("result".data), ("result".data)]
    (by decide) rfl (by decide) rfl
    (List.Forall₂.cons rfl (List.Forall₂.cons rfl
      (List.Forall₂.cons rfl List.Forall₂.nil)))

/-! ## C6 — qualified-name construction and split round trip -/

/-- What the tail of `dispatch_tool_call` makes of a session result:
propagate the exception, or take the first content item's text
(`IndexError` when the content list is empty). -/
def firstTextOf : Except PyErr CallToolRes → Except PyErr Str
  | .error e => .error e
  | .ok res =>
    match res.content with
    | [] => .error .indexErrorEmpty
    | item :: _ => .ok item.text

/-- Counterexample to C6 as stated: provider name `a_` and local tool name
`b` — neither containing the separator — produce qualified name `a___b`,
which the dispatcher's split cuts at the leftmost separator occurrence
into (`a`, `_b`): neither original component is recovered. -/
theorem qualified_roundtrip_cex :
    containsSub TOOL_SEPARATOR (("a_".data)) = false ∧
    containsSub TOOL_SEPARATOR (("b".data)) = false ∧
    qualifiedName (("a_".data)) (("b".data)) = ("a___b".data) ∧
    pySplit2 '_' '_' (qualifiedName (("a_".data)) (("b".data))) =
      some (("a".data), ("_b".data)) ∧
    ("a".data) ≠ ("a_".data) ∧ ("_b".data) ≠ ("b".data) :=
  ⟨by decide, by decide, by decide, by decide, by decide, by decide⟩

/-- C6 (amended): the qualified name is provider-name ++ `__` ++
local-name, and splitting recovers exactly the originals provided neither
component contains the separator and the provider name does not end in
`'_'`; concretely, `search`/`query` and `fetch`/`get` yield exactly
`search__query` and `fetch__get`, and dispatching `search__query` with a
parseable argument payload routes to the `search` provider's session,
invoked with local name `query` and the parsed arguments. -/
theorem qualified_roundtrip_amended :
    (∀ p t : Str, containsSub TOOL_SEPARATOR p = false → endsU p = false →
      containsSub TOOL_SEPARATOR t = false →
      qualifiedName p t = p ++ TOOL_SEPARATOR ++ t ∧
      pySplit2 '_' '_' (qualifiedName p t) = some (p, t)) ∧
    qualifiedName (("search".data)) (("query".data)) = ("search__query".data) ∧
    qualifiedName (("fetch".data)) (("get".data)) = ("fetch__get".data) ∧
    (∀ (J : Type) (parse : Str → Option J) (s1 s2 : MCPServer J)
      (sess : SessionFn J) (cid args : Str) (v : J),
      s1.session = some sess → parse args = some v →
      dispatch_tool_call parse [(("search".data), s1), (("fetch".data), s2)]
        ⟨("search__query".data), cid, args⟩ =
          firstTextOf (sess (("query".data)) v)) := by
  refine ⟨?_, by decide, by decide, ?_⟩
  · intro p t hp he ht
    refine ⟨rfl, ?_⟩
    rw [pySplit2, splitOnL_qualified p t hp he ht]
  · intro J parse s1 s2 sess cid args v hsess hargs
    simp only [dispatch_tool_call]
    rw [hargs]
    dsimp only
    rw [show pySplit2 '_' '_' (("search__query".data)) =
      some (("search".data), ("query".data)) from rfl]
    dsimp only
    rw [show dictGet [(("search".data), s1), (("fetch".data), s2)] (("search".data)) =
      some s1 from by simp [dictGet]]
    dsimp only
    rw [hsess]
    dsimp only
    cases sess (("query".data)) v with
    | error e => rfl
    | ok res =>
      obtain ⟨content⟩ := res
      cases content with
      | nil => rfl
      | cons item rest => rfl

/-- Concrete run of the amended C6 statement: the documented round trip
and the routing of `search__query` to the `search` provider. -/
theorem qualified_roundtrip_amended_witness :
    pySplit2 '_' '_' (qualifiedName (("search".data)) (("query".data))) =
      some (("search".data), ("query".data)) ∧
    dispatch_tool_call parseAll
      [(("search".data), searchServer), (("fetch".data), searchServer)]
      ⟨("search__query".data), ("c4".data), ("good".data)⟩ =
      firstTextOf (sessOk (("query".data)) ()) :=
  ⟨(qualified_roundtrip_amended.1 (("search".data)) (("query".data))
      (by decide) (by decide) (by decide)).2,
   qualified_roundtrip_amended.2.2.2 Unit parseAll searchServer searchServer
      sessOk (("c4".data)) (("good".data)) () rfl rfl⟩

/-! ## C7 — catalog construction performs no duplicate check -/

/-- A server record with no live session, for registry-level scenarios. -/
def bareServer (n : Str) : MCPServer Unit :=
  { name := n, command := ("cmd".data), args := [], env := none, session := none }

/-- The `list_tools` results for two providers whose tools collide on the
qualified name `a__b__c`: provider `a` exposes `b__c`, provider `a__b`
exposes `c`. -/
def listedDup : Str → List ToolMeta := fun n =>
  if n = ("a".data) then [⟨("b__c".data), ("d".data), ("s".data)⟩]
  else if n = ("a__b".data) then [⟨("c".data), ("d".data), ("s".data)⟩]
  else []

/-- Two registered providers, named `a` and `a__b`. -/
def serversDup : List (Str × MCPServer Unit) :=
  [(("a".data), bareServer (("a".data))), (("a__b".data), bareServer (("a__b".data)))]

/-- Counterexample to C7: two providers expose the same qualified name
`a__b__c`, yet the catalog builds successfully and contains the name
twice — `init_servers` checks nothing. -/
theorem catalog_duplicate_cex :
    (init_servers listedDup serversDup).map OpenAITool.name =
      [("a__b__c".data), ("a__b__c".data)] ∧
    ¬ ((init_servers listedDup serversDup).map OpenAITool.name).Nodup :=
  ⟨by decide, by decide⟩

/-- C7 (amended): `init_servers` performs no duplicate-name detection and
has no failure path of its own: every listed tool of every provider
contributes exactly one catalog entry (so a built catalog can contain
duplicate qualified names). -/
theorem catalog_no_duplicate_check {J : Type} (listed : Str → List ToolMeta)
    (servers : List (Str × MCPServer J)) :
    (init_servers listed servers).length =
      (servers.map fun p => (listed p.2.name).length).sum := by
  induction servers with
  | nil => rfl
  | cons s rest ih =>
    simp only [init_servers, List.flatMap_cons, List.map_cons, List.sum_cons,
      List.length_append, List.length_map] at *
    omega

/-! ## C8 — dispatch output: first content item's text, or IndexError -/

/-- C8: once the provider invocation succeeds, dispatch returns the text
of the first content item of the result payload, and fails (with the
empty-result `IndexError`) exactly when the content list is empty. -/
theorem dispatch_first_content_text {J : Type} (parse : Str → Option J)
    (servers : List (Str × MCPServer J)) (tc : ToolCallReq) (v : J)
    (sn tn : Str) (srv : MCPServer J) (sess : SessionFn J) (res : CallToolRes)
    (h1 : parse tc.arguments = some v)
    (h2 : pySplit2 '_' '_' tc.name = some (sn, tn))
    (h3 : dictGet servers sn = some srv)
    (h4 : srv.session = some sess)
    (h5 : sess tn v = .ok res) :
    (res.content = [] →
      dispatch_tool_call parse servers tc = .error .indexErrorEmpty) ∧
    ∀ (item : ContentItem) (rest : List ContentItem),
      res.content = item :: rest →
      dispatch_tool_call parse servers tc = .ok item.text := by
  have hd : dispatch_tool_call parse servers tc =
      (match res.content with
       | [] => .error .indexErrorEmpty
       | item :: _ => .ok item.text) := by
    simp only [dispatch_tool_call]
    rw [h1]
    dsimp only
    rw [h2]
    dsimp only
    rw [h3]
    dsimp only
    rw [h4]
    dsimp only
    rw [h5]
  constructor
  · intro hc
    rw [hd, hc]
  · intro item rest hc
    rw [hd, hc]

/-- A session whose `call_tool` returns an empty content list. -/
def sessEmpty : SessionFn Unit := fun _ _ => .ok { content := [] }

/-- The `search` provider backed by the empty-content session. -/
def emptyServer : MCPServer Unit :=
  { name := ("search".data), command := ("cmd".data), args := [], env := none,
    session := some sessEmpty }

/-- Registry whose `search` provider returns empty content. -/
def serversE : List (Str × MCPServer Unit) := [(("search".data), emptyServer)]

/-- Concrete runs of C8: a one-item content list yields its text, an empty
content list raises. -/
theorem dispatch_first_content_text_witness :
    dispatch_tool_call parseAll serversW
      ⟨("search__q".data), ("c5".data), ("good".data)⟩ = .ok (("result".data)) ∧
    dispatch_tool_call parseAll serversE
      ⟨("search__q".data), ("c6".data), ("good".data)⟩ = .error .indexErrorEmpty :=
  ⟨(dispatch_first_content_text parseAll serversW
      ⟨("search__q".data), ("c5".data), ("good".data)⟩ () (("search".data)) (("q".data))
      searchServer sessOk ⟨[⟨("result".data)⟩]⟩ rfl rfl rfl rfl rfl).2
      ⟨("result".data)⟩ [] rfl,
   (dispatch_first_content_text parseAll serversE
      ⟨("search__q".data), ("c6".data), ("good".data)⟩ () (("search".data)) (("q".data))
      emptyServer sessEmpty ⟨[]⟩ rfl rfl rfl rfl rfl).1 rfl⟩

/-! ## C9 — search post-processing: fields and ranks; no local cap -/

theorem cleanAll_length (r : Nat) (items : List RawItem) :
    (cleanAll r items).length = items.length := by
  induction items generalizing r with
  | nil => rfl
  | cons it rest ih => simp [cleanAll, ih]

theorem cleanAll_get (items : List RawItem) :
    ∀ (r i : Nat) (h : i < items.length)
      (h' : i < (cleanAll r items).length),
      (cleanAll r items).get ⟨i, h'⟩ =
        cleanItem (r + i) (items.get ⟨i, h⟩) := by
  induction items with
  | nil =>
    intro r i h h'
    exact absurd h (by simp)
  | cons it rest ih =>
    intro r i h h'
    cases i with
    | zero => rfl
    | succ n =>
      have hn : n < rest.length := by
        simpa using Nat.lt_of_succ_lt_succ h
      have hn' : n < (cleanAll (r + 1) rest).length := by
        rw [cleanAll_length]
        exact hn
      have step : (cleanAll r (it :: rest)).get ⟨n + 1, h'⟩ =
          (cleanAll (r + 1) rest).get ⟨n, hn'⟩ := rfl
      rw [step, ih (r + 1) n hn hn']
      have : r + 1 + n = r + (n + 1) := by omega
      rw [this]
      rfl

/-- A raw search item with no optional metadata. -/
def rawA : RawItem := ⟨("t".data), ("s".data), ("u".data), none, []⟩

/-- Counterexample to C9 as stated: the post-processing applies no local
cap — six raw items produce six records, exceeding the fixed count of 5
(the cap lives only in the API request parameter `num=5`). -/
theorem google_search_cap_cex :
    (google_search (List.replicate 6 rawA)).length = 6 ∧
    ¬ (google_search (List.replicate 6 rawA)).length ≤ 5 :=
  ⟨by decide, by decide⟩

/-- C9 (amended): `google_search` maps each raw item, in order, to a
record {rank, title, snippet, url, domain, published_at-or-absent} whose
rank is the record's 1-based position; the 5-result cap is imposed by the
API request (`num=5`), not locally, so whenever at most 5 raw items arrive
the output contains at most 5 records. -/
theorem google_search_fields (items : List RawItem)
    (h5 : items.length ≤ 5) :
    (google_search items).length = items.length ∧
    (google_search items).length ≤ 5 ∧
    ∀ (i : Nat) (h : i < items.length)
      (h' : i < (google_search items).length),
      ((google_search items).get ⟨i, h'⟩).rank = i + 1 ∧
      ((google_search items).get ⟨i, h'⟩).title = (items.get ⟨i, h⟩).title ∧
      ((google_search items).get ⟨i, h'⟩).snippet =
        (items.get ⟨i, h⟩).snippet ∧
      ((google_search items).get ⟨i, h'⟩).url = (items.get ⟨i, h⟩).link ∧
      ((google_search items).get ⟨i, h'⟩).domain =
        (items.get ⟨i, h⟩).displayLink ∧
      ((google_search items).get ⟨i, h'⟩).published_at =
        pyOr (metaOf (items.get ⟨i, h⟩)).published_time
          (metaOf (items.get ⟨i, h⟩)).updated_time := by
  have hlen : (google_search items).length = items.length :=
    cleanAll_length 1 items
  refine ⟨hlen, by omega, ?_⟩
  intro i h h'
  have hg : (google_search items).get ⟨i, h'⟩ =
      cleanItem (1 + i) (items.get ⟨i, h⟩) := cleanAll_get items 1 i h h'
  rw [hg]
  exact ⟨by simp [cleanItem]; omega, rfl, rfl, rfl, rfl, rfl⟩

/-- A raw item with full metadata. -/
def itemX : RawItem :=
  ⟨("T1".data), ("S1".data), ("u1".data), some (("d1".data)),
   [⟨some (("p1".data)), some (("q1".data))⟩]⟩

/-- A raw item whose published time is the empty string (falsy), so the
`or` falls through to the updated time. -/
def itemY : RawItem :=
  ⟨("T2".data), ("S2".data), ("u2".data), none, [⟨some [], some (("q2".data))⟩]⟩

/-- Concrete run of the amended C9 statement on a two-item response. -/
theorem google_search_fields_witness :
    (google_search [itemX, itemY]).length = [itemX, itemY].length ∧
    (google_search [itemX, itemY]).length ≤ 5 ∧
    ((google_search [itemX, itemY]).get ⟨1, by decide⟩).rank = 2 ∧
    ((google_search [itemX, itemY]).get ⟨1, by decide⟩).published_at =
      pyOr (metaOf itemY).published_time (metaOf itemY).updated_time :=
  ⟨(google_search_fields [itemX, itemY] (by decide)).1,
   (google_search_fields [itemX, itemY] (by decide)).2.1,
   ((google_search_fields [itemX, itemY] (by decide)).2.2 1 (by decide)
      (by decide)).1,
   ((google_search_fields [itemX, itemY] (by decide)).2.2 1 (by decide)
      (by decide)).2.2.2.2.2⟩

/-! ## C10 — build_servers: keys, copied fields, catalog-prefix invariant -/

/-- The source's `RAW_CONFIG`: `fetch` and `google_search`. -/
def RAW_CONFIG : List (Str × RawCfg) :=
  [(("fetch".data), ⟨("uvx".data), [("mcp-server-fetch".data)], none⟩),
   (("google_search".data),
    ⟨("uv".data),
     [("--directory".data), ("/path/to/your/project/servers/src".data),
      ("run".data), ("server_google_search.py".data)], none⟩)]

/-- C10: `build_servers` keeps exactly the raw keys, in order; every built
entry is named after its key with command/args/env copied unchanged (and
no session); consequently every catalog entry built from those servers has
qualified name key ++ separator ++ local-name for some key of the servers
mapping — the mapping `dispatch_tool_call` looks providers up in. -/
theorem build_servers_invariant (J : Type) (raw : List (Str × RawCfg)) :
    ((build_servers (J := J) raw).map Prod.fst = raw.map Prod.fst) ∧
    (∀ p : Str × MCPServer J, p ∈ build_servers (J := J) raw →
      p.2.name = p.1) ∧
    (∀ (n : Str) (cfg : RawCfg), (n, cfg) ∈ raw →
      (n, ({ name := n, command := cfg.command, args := cfg.args,
             env := cfg.env, session := none } : MCPServer J)) ∈
        build_servers (J := J) raw) ∧
    (∀ (listed : Str → List ToolMeta) (t : OpenAITool),
      t ∈ init_servers listed (build_servers (J := J) raw) →
      ∃ (k : Str) (tm : ToolMeta), k ∈ raw.map Prod.fst ∧ tm ∈ listed k ∧
        t.name = qualifiedName k tm.name) := by
  refine ⟨?_, ?_, ?_, ?_⟩
  · rw [build_servers, List.map_map]
    rfl
  · intro p hp
    simp only [build_servers, List.mem_map] at hp
    obtain ⟨q, hq, rfl⟩ := hp
    rfl
  · intro n cfg hmem
    simp only [build_servers, List.mem_map]
    exact ⟨(n, cfg), hmem, rfl⟩
  · intro listed t ht
    simp only [init_servers, List.mem_flatMap] at ht
    obtain ⟨p, hp, ht2⟩ := ht
    simp only [List.mem_map] at ht2
    obtain ⟨tm, htm, rfl⟩ := ht2
    simp only [build_servers, List.mem_map] at hp
    obtain ⟨q, hq, rfl⟩ := hp
    exact ⟨q.1, tm, List.mem_map_of_mem Prod.fst hq, htm, rfl⟩

/-- The `list_tools` results for the configured servers: `fetch` exposes a
`get` tool, `google_search` exposes nothing. -/
def listedW : Str → List ToolMeta := fun n =>
  if n = ("fetch".data) then [⟨("get".data), ("d".data), ("s".data)⟩] else []

/-- Concrete run of C10 on the source's `RAW_CONFIG`. -/
theorem build_servers_invariant_witness :
    ((build_servers (J := Unit) RAW_CONFIG).map Prod.fst =
      RAW_CONFIG.map Prod.fst) ∧
    (∃ (k : Str) (tm : ToolMeta), k ∈ RAW_CONFIG.map Prod.fst ∧
      tm ∈ listedW k ∧
      (mcp_tool_to_openai_tool ⟨("get".data), ("d".data), ("s".data)⟩
        (("fetch".data))).name = qualifiedName k tm.name) :=
  ⟨(build_servers_invariant Unit RAW_CONFIG).1,
   (build_servers_invariant Unit RAW_CONFIG).2.2.2 listedW
     (mcp_tool_to_openai_tool ⟨("get".data), ("d".data), ("s".data)⟩ (("fetch".data)))
     (by decide)⟩
